import Mathlib

/-!
# practice1/main.cpp : a checkerboard triangle

A shallow embedding of `src/practice1/main.cpp`:

* the two GLSL shaders (`fragment_main`, `vertex_main`): floats are the rationals that
  binary32 values denote, the product of two floats is rounded to binary32, and `int` is
  the 32-bit signed integer;
* the helpers `create_shader` and `create_program`, run against an explicit record of what
  the OpenGL driver answers, with exceptions as `Except` values;
* `main`, as a function from a `World` (the answers of SDL, GLEW and the driver, and the
  event queue met by each loop iteration) to the list of calls issued, the text printed
  on the error stream and the exit status.
-/

namespace Practice1

/-! ## GLSL shaders (lines 100-131) -/

/-- GLSL `vec2`, components `[0]` and `[1]`; a float is given by the rational it denotes. -/
structure Vec2 where
  x : ℚ
  y : ℚ
  deriving DecidableEq

/-- GLSL `vec4`; a float is given by the rational it denotes. -/
structure Vec4 where
  x : ℚ
  y : ℚ
  z : ℚ
  w : ℚ
  deriving DecidableEq

/-- Nearest integer to `m`, a tie going to the even neighbour. -/
def round_half_even (m : ℚ) : ℤ :=
  if m - ⌊m⌋ < 1 / 2 then ⌊m⌋
  else if 1 / 2 < m - ⌊m⌋ then ⌊m⌋ + 1
  else if ⌊m⌋ % 2 = 0 then ⌊m⌋ else ⌊m⌋ + 1

/-- Exponent of the binary32 spacing around `q`: 24 significant bits, so 23 below the
exponent of `q`, and never below -149, the exponent of the smallest subnormal. -/
def binary32_quantum (q : ℚ) : ℤ := max (Int.log 2 |q| - 23) (-149)

/-- Rounding of a rational to binary32, to nearest with ties to even (IEEE 754), the
exponent not being bounded above: the result exceeds `FLT_MAX` exactly when the rounding
overflows. -/
def binary32_round (q : ℚ) : ℚ :=
  round_half_even (q / 2 ^ binary32_quantum q) * 2 ^ binary32_quantum q

/-- The largest finite binary32 value, (2 - 2 ^ (-23)) * 2 ^ 127. -/
def FLT_MAX : ℚ := (2 ^ 24 - 1) * 2 ^ 104

/-- GLSL product `a * b` of two floats: the exact product rounded to binary32; `none` when
the rounding overflows to an infinity. -/
def float_mul (a b : ℚ) : Option ℚ :=
  if |binary32_round (a * b)| ≤ FLT_MAX then some (binary32_round (a * b)) else none

/-- Integer obtained from a rational by dropping the fractional part (rounding toward
zero). -/
def truncate (q : ℚ) : ℤ := if 0 ≤ q then ⌊q⌋ else ⌈q⌉

/-- GLSL constructor `int(f)` applied to a float: the fractional part is dropped; the
result is undefined (`none`) when it does not fit the 32-bit signed `int`. -/
def glsl_int (f : ℚ) : Option ℤ :=
  if -2 ^ 31 ≤ truncate f ∧ truncate f < 2 ^ 31 then some (truncate f) else none

/-- GLSL sum `a + b` of two `int`: the low 32 bits of the sum, in two's complement
(GLSL 3.30, section 4.1.3). -/
def int_add (a b : ℤ) : ℤ := (a + b + 2 ^ 31) % 2 ^ 32 - 2 ^ 31

/-- GLSL integer remainder `a % b`, as the C family computes it (the sign follows the
dividend). GLSL 3.30 only fixes the result when both operands are non-negative; every
statement below that depends on it is about such operands. -/
def glsl_mod (a b : ℤ) : ℤ := Int.tmod a b

/-- Opaque white, `vec4(1.0, 1.0, 1.0, 1.0)`. -/
def white : Vec4 := ⟨1, 1, 1, 1⟩

/-- Opaque black, `vec4(0.0, 0.0, 0.0, 1.0)`. -/
def black : Vec4 := ⟨0, 0, 0, 1⟩

/-- Fragment shader `main` (lines 104-114): the value written to `out_color` for the
interpolated input `pos`, or `none` when a product overflows or a conversion to `int` is
undefined. -/
def fragment_main (pos : Vec2) : Option Vec4 :=
  match float_mul pos.x 10, float_mul pos.y 10 with
  | some fx, some fy =>
    match glsl_int fx, glsl_int fy with
    | some ix, some iy =>
      if glsl_mod (int_add ix iy) 2 = 0 then
        some (Vec4.mk 1 1 1 1)
      else
        some (Vec4.mk 0 0 0 1)
    | _, _ => none
  | _, _ => none

/-- Vertex shader constant `VERTICES` (lines 120-124). -/
def VERTICES : Fin 3 → Vec2
  | 0 => ⟨0, 0⟩
  | 1 => ⟨1, 0⟩
  | 2 => ⟨0, 1⟩

/-- Vertex shader `main` (lines 126-130): the pair `(gl_Position, pos)` for a vertex id. -/
def vertex_main (gl_VertexID : Fin 3) : Vec4 × Vec2 :=
  (⟨(VERTICES gl_VertexID).x, (VERTICES gl_VertexID).y, 0, 1⟩, VERTICES gl_VertexID)

/-- Position (x, y of `gl_Position`, whose `w` is 1 at every vertex) of the point of the
triangle with barycentric weights `a`, `b`, `c` on vertices 0, 1, 2. -/
def covered_position (a b c : ℚ) : Vec2 :=
  ⟨a * (vertex_main 0).1.x + b * (vertex_main 1).1.x + c * (vertex_main 2).1.x,
   a * (vertex_main 0).1.y + b * (vertex_main 1).1.y + c * (vertex_main 2).1.y⟩

/-- Value of the varying `pos` the rasteriser hands to the fragment shader at the point
with barycentric weights `a`, `b`, `c` (linear interpolation of the vertex outputs). -/
def interpolated_pos (a b c : ℚ) : Vec2 :=
  ⟨a * (vertex_main 0).2.x + b * (vertex_main 1).2.x + c * (vertex_main 2).2.x,
   a * (vertex_main 0).2.y + b * (vertex_main 1).2.y + c * (vertex_main 2).2.y⟩

/-! ## Strings, exceptions and the C++ library -/

/-- The terminator of a C string. -/
def NUL : Char := Char.ofNat 0

/-- Reading of a character buffer as a C string: the characters before the first
terminator. -/
def c_str (s : List Char) : List Char := s.takeWhile (fun c => c ≠ NUL)

/-- The `std::exception` objects thrown in this program, each carrying the `std::string`
it was constructed from. -/
inductive Exception where
  | runtime_error (msg : List Char)
  | length_error (msg : List Char)
  deriving DecidableEq

/-- The `std::string` an exception was constructed from. -/
def Exception.message : Exception → List Char
  | .runtime_error msg => msg
  | .length_error msg => msg

/-- `e.what()`: the message as a C string. -/
def Exception.what (e : Exception) : List Char := c_str e.message

/-- What the C++ implementation fixes: the width of `size_t`, `std::string::max_size()`
and the text of the `std::length_error` thrown by `std::string::resize`. -/
structure Platform where
  size_t_bits : Nat
  string_max_size : Nat
  length_error_what : List Char

/-- `EXIT_FAILURE` of `<cstdlib>`. -/
def EXIT_FAILURE : Int := 1

/-- Conversion of an `int` to `size_t` (modulo 2 ^ width). -/
def to_size_t (P : Platform) (n : Int) : Nat := (n % 2 ^ P.size_t_bits).toNat

/-- `std::string::resize(n)`: throws `std::length_error` when `n` exceeds `max_size()`,
otherwise truncates or pads with value-initialised characters. -/
def string_resize (P : Platform) (s : List Char) (n : Nat) : Except Exception (List Char) :=
  if n > P.string_max_size then .error (.length_error P.length_error_what)
  else if n ≤ s.length then .ok (s.take n)
  else .ok (s ++ List.replicate (n - s.length) NUL)

/-- `to_string` (lines 14-17). -/
def to_string (str : List Char) : List Char := str

/-- Conversion of a `GLuint` to the 32-bit signed `GLint` (modulo 2 ^ 32). -/
def to_GLint (u : Nat) : Int :=
  if u % 2 ^ 32 < 2 ^ 31 then ((u % 2 ^ 32 : Nat) : Int) else ((u % 2 ^ 32 : Nat) : Int) - 2 ^ 32

/-- Conversion of a `GLint` to the 32-bit unsigned `GLuint` (modulo 2 ^ 32). -/
def to_GLuint (i : Int) : Nat := (i % 2 ^ 32).toNat

/-! ## The OpenGL driver -/

/-- `GL_FALSE`. -/
def GL_FALSE : Int := 0

/-- Shader stages passed to `glCreateShader`. -/
inductive ShaderType where
  | GL_FRAGMENT_SHADER
  | GL_VERTEX_SHADER
  deriving DecidableEq

/-- What the driver answers to the queries on a shader object after compilation, or on a
program object after linking: the status flag (`GL_COMPILE_STATUS` or `GL_LINK_STATUS`),
`GL_INFO_LOG_LENGTH`, and the text of the info log. -/
structure InfoObject where
  status : Int
  info_log_length : Nat
  info_log : List Char

/-- The answers of the OpenGL driver. `compile shader source` is the state of shader
object `shader` after `glShaderSource` and `glCompileShader`; `link program vs fs` is
the state of program object `program` after the two `glAttachShader` and
`glLinkProgram`. -/
structure Driver where
  glCreateShader : ShaderType → Nat
  compile : Nat → List Char → InfoObject
  glCreateProgram : Nat
  link : Nat → Nat → Nat → InfoObject
  glGenVertexArrays : Nat

/-- Buffer contents after `glGetShaderInfoLog` or `glGetProgramInfoLog` (OpenGL 3.3 core,
section 6.1.10): at most `bufSize` characters are written, the terminator included, so at
most `bufSize - 1` characters of the log, followed by the terminator. Nothing is written
for a `bufSize` that is not positive. -/
def glGetInfoLog (info_log : List Char) (bufSize : Int) (buffer : List Char) : List Char :=
  if bufSize ≤ 0 then buffer
  else
    let n := min (bufSize.toNat - 1) info_log.length
    info_log.take n ++ NUL :: buffer.drop (n + 1)

/-- Function `create_shader` (lines 29-47). -/
def create_shader (P : Platform) (gl : Driver) (shader_type : ShaderType)
    (shader_source : List Char) : Except Exception Nat :=
  let shader := gl.glCreateShader shader_type
  let obj := gl.compile shader shader_source
  let status : Int := obj.status
  if status = GL_FALSE then
    let length : Int := obj.info_log_length
    match string_resize P [] (to_size_t P (length - 1)) with
    | .error e => .error e
    | .ok buffer =>
      let buffer := glGetInfoLog obj.info_log (length - 1) buffer
      .error (.runtime_error ("Failed to create shader: ".toList ++ buffer))
  else
    .ok shader

/-- Function `create_program` (lines 49-68). The handle is kept in a `GLint` local, so each
use of it converts back to `GLuint`. -/
def create_program (P : Platform) (gl : Driver) (vertex_shader fragment_shader : Nat) :
    Except Exception Nat :=
  let program : Int := to_GLint gl.glCreateProgram
  let obj := gl.link (to_GLuint program) vertex_shader fragment_shader
  let status : Int := obj.status
  if status = GL_FALSE then
    let length : Int := obj.info_log_length
    match string_resize P [] (to_size_t P (length - 1)) with
    | .error e => .error e
    | .ok buffer =>
      let buffer := glGetInfoLog obj.info_log (length - 1) buffer
      .error (.runtime_error ("Failed to create program: ".toList ++ buffer))
  else
    .ok (to_GLuint program)

/-! ## SDL, GLEW and the calls `main` issues -/

/-- `GLEW_NO_ERROR`. -/
def GLEW_NO_ERROR : Nat := 0

/-- `SDL_QUIT`, the type of the quit event. -/
def SDL_QUIT : Nat := 0x100

/-- `SDL_GL_CONTEXT_PROFILE_CORE`. -/
def SDL_GL_CONTEXT_PROFILE_CORE : Nat := 1

/-- An `SDL_Event`, of which the program reads only `type`. -/
structure SDL_Event where
  type : Nat
  deriving DecidableEq

/-- Attributes passed to `SDL_GL_SetAttribute`. -/
inductive SDL_GLattr where
  | SDL_GL_CONTEXT_MAJOR_VERSION
  | SDL_GL_CONTEXT_MINOR_VERSION
  | SDL_GL_CONTEXT_PROFILE_MASK
  | SDL_GL_DOUBLEBUFFER
  deriving DecidableEq

/-- Calls on SDL, GLEW, OpenGL and the two helpers that `main` issues, with the arguments
that vary or that a statement below reads. `SDL_Init` is `SDL_Init(SDL_INIT_VIDEO)`,
`glClear` is `glClear(GL_COLOR_BUFFER_BIT)`, `glDrawArrays_TRIANGLES first count` is
`glDrawArrays(GL_TRIANGLES, first, count)`. -/
inductive Call where
  | SDL_Init
  | SDL_CreateWindow (title : List Char) (w h : Nat)
  | SDL_GL_SetAttribute (attr : SDL_GLattr) (value : Nat)
  | SDL_GL_CreateContext (window : Nat)
  | glewInit
  | create_shader (shader_type : ShaderType)
  | create_program (vertex_shader fragment_shader : Nat)
  | glGenVertexArrays (n : Nat)
  | glClearColor
  | glClear
  | glUseProgram (program : Nat)
  | glBindVertexArray (array : Nat)
  | glDrawArrays_TRIANGLES (first count : Nat)
  | SDL_GL_SwapWindow (window : Nat)
  | SDL_GL_DeleteContext (context : Nat)
  | SDL_DestroyWindow (window : Nat)
  deriving DecidableEq

/-- Everything outside the program that one run of `main` meets: the C++ implementation,
the OpenGL driver, the return values of the SDL and GLEW calls (pointers as numbers, 0
for the null pointer), and for each iteration of the render loop the queue of pending
events it finds. -/
structure World where
  platform : Platform
  gl : Driver
  SDL_Init : Int
  SDL_GetError : List Char
  SDL_CreateWindow : Nat
  SDL_GL_CreateContext : Nat
  glewInit : Nat
  glewGetErrorString : Nat → List Char
  GLEW_VERSION_3_3 : Bool
  events : List (List SDL_Event)

/-- Function `sdl2_fail` (lines 19-22): the exception it throws. -/
def sdl2_fail (w : World) (message : List Char) : Exception :=
  .runtime_error (to_string message ++ w.SDL_GetError)

/-- Function `glew_fail` (lines 24-27): the exception it throws. -/
def glew_fail (w : World) (message : List Char) (error : Nat) : Exception :=
  .runtime_error (to_string message ++ w.glewGetErrorString error)

/-- The array `fragment_source` (lines 100-115). -/
def fragment_source : List Char :=
  ("#version 330 core\nlayout (location = 0) out vec4 out_color;\nin vec2 pos;\n" ++
   "void main()\n\x7b\nif (((int(pos[0] * 10.0) + int(pos[1] * 10.0)) % 2) == 0)\n\x7b\n" ++
   "    out_color = vec4(1.0, 1.0, 1.0, 1.0);\n\x7d\nelse\n\x7b\n" ++
   "    out_color = vec4(0.0, 0.0, 0.0, 1.0);\n\x7d\n\x7d\n").toList

/-- The array `vertex_source` (lines 118-131). -/
def vertex_source : List Char :=
  ("#version 330 core\nconst vec2 VERTICES[3] = vec2[3](\nvec2(0.0, 0.0),\n" ++
   "vec2(1.0, 0.0),\nvec2(0.0, 1.0)\n);\nout vec2 pos;\nvoid main()\n\x7b\n" ++
   "gl_Position = vec4(VERTICES[gl_VertexID], 0.0, 1.0);\n" ++
   "pos = VERTICES[gl_VertexID];\n\x7d\n").toList

/-- The local variables of `main` that are live in the render loop. -/
structure Locals where
  window : Nat
  gl_context : Nat
  fragment_shader : Nat
  vertex_shader : Nat
  program : Nat
  vertex_array : Nat
  running : Bool
  deriving DecidableEq

/-- Lines 73-139 of `main`: the calls issued, and either the exception thrown or the
local variables at the head of the render loop. -/
def bootstrap (w : World) : List Call × Except Exception Locals :=
  let t := [Call.SDL_Init]
  if w.SDL_Init ≠ 0 then (t, .error (sdl2_fail w "SDL_Init: ".toList)) else
  let window := w.SDL_CreateWindow
  let t := t ++ [Call.SDL_CreateWindow "Graphics course practice 1".toList 800 600]
  if window = 0 then (t, .error (sdl2_fail w "SDL_CreateWindow: ".toList)) else
  let t := t ++ [Call.SDL_GL_SetAttribute .SDL_GL_CONTEXT_MAJOR_VERSION 3,
                 Call.SDL_GL_SetAttribute .SDL_GL_CONTEXT_MINOR_VERSION 3,
                 Call.SDL_GL_SetAttribute .SDL_GL_CONTEXT_PROFILE_MASK SDL_GL_CONTEXT_PROFILE_CORE,
                 Call.SDL_GL_SetAttribute .SDL_GL_DOUBLEBUFFER 1]
  let gl_context := w.SDL_GL_CreateContext
  let t := t ++ [Call.SDL_GL_CreateContext window]
  if gl_context = 0 then (t, .error (sdl2_fail w "SDL_GL_CreateContext: ".toList)) else
  let result := w.glewInit
  let t := t ++ [Call.glewInit]
  if result ≠ GLEW_NO_ERROR then (t, .error (glew_fail w "glewInit: ".toList result)) else
  if !w.GLEW_VERSION_3_3 then
    (t, .error (.runtime_error "OpenGL 3.3 is not supported".toList)) else
  let t := t ++ [Call.create_shader .GL_FRAGMENT_SHADER]
  match create_shader w.platform w.gl .GL_FRAGMENT_SHADER fragment_source with
  | .error e => (t, .error e)
  | .ok fragment_shader =>
  let t := t ++ [Call.create_shader .GL_VERTEX_SHADER]
  match create_shader w.platform w.gl .GL_VERTEX_SHADER vertex_source with
  | .error e => (t, .error e)
  | .ok vertex_shader =>
  let t := t ++ [Call.create_program vertex_shader fragment_shader]
  match create_program w.platform w.gl vertex_shader fragment_shader with
  | .error e => (t, .error e)
  | .ok program =>
  let vertex_array := w.gl.glGenVertexArrays
  let t := t ++ [Call.glGenVertexArrays 1, Call.glClearColor]
  (t, .ok ⟨window, gl_context, fragment_shader, vertex_shader, program, vertex_array, true⟩)

/-- The event phase of one loop iteration (lines 142-148): `SDL_PollEvent` takes the next
pending event until the queue is empty; returns the events left pending and the new value
of `running`. The `break` of the `switch` leaves the `switch` only. -/
def poll_events : List SDL_Event → Bool → List SDL_Event × Bool
  | [], running => ([], running)
  | event :: queue, running =>
    poll_events queue (if event.type = SDL_QUIT then false else running)

/-- The calls of one rendered frame (lines 153-157). -/
def render_frame (s : Locals) : List Call :=
  [Call.glClear, Call.glUseProgram s.program, Call.glBindVertexArray s.vertex_array,
   Call.glDrawArrays_TRIANGLES 0 3, Call.SDL_GL_SwapWindow s.window]

/-- The body of the render loop (lines 142-157) run on the pending queue `queue`: the
locals after it, the calls issued, and whether the loop was left by `break`. -/
def loop_body (s : Locals) (queue : List SDL_Event) : Locals × List Call × Bool :=
  let s := { s with running := (poll_events queue s.running).2 }
  if !s.running then (s, [], true)
  else (s, render_frame s, false)

/-- The render loop (lines 140-158) along a schedule of pending queues, one for each
iteration: the locals after it, the calls issued, and whether the loop has ended (`false`
when the schedule ends with the loop still running). -/
def render_loop : Locals → List (List SDL_Event) → Locals × List Call × Bool
  | s, [] => (s, [], !s.running)
  | s, queue :: rest =>
    if !s.running then (s, [], true)
    else
      let r := loop_body s queue
      if r.2.2 then (r.1, r.2.1, true)
      else
        let r2 := render_loop r.1 rest
        (r2.1, r.2.1 ++ r2.2.1, r2.2.2)

/-- One run of the program: the calls issued, the lines written to the error stream, and
the exit status (`none` when the schedule of the world ends with the loop still
running). -/
structure Run where
  calls : List Call
  stderr : List (List Char)
  exit_status : Option Int
  deriving DecidableEq

/-- Function `main` (lines 70-167). -/
def main (w : World) : Run :=
  match bootstrap w with
  | (t, .error e) => ⟨t, [e.what], some EXIT_FAILURE⟩
  | (t, .ok s) =>
    let r := render_loop s w.events
    if r.2.2 then
      ⟨t ++ r.2.1 ++ [Call.SDL_GL_DeleteContext r.1.gl_context, Call.SDL_DestroyWindow r.1.window],
       [], some 0⟩
    else
      ⟨t ++ r.2.1, [], none⟩

/-- The calls of a bootstrap in which every step succeeds, in the order of lines 73-137. -/
def init_calls (w : World) : List Call :=
  [Call.SDL_Init,
   Call.SDL_CreateWindow "Graphics course practice 1".toList 800 600,
   Call.SDL_GL_SetAttribute .SDL_GL_CONTEXT_MAJOR_VERSION 3,
   Call.SDL_GL_SetAttribute .SDL_GL_CONTEXT_MINOR_VERSION 3,
   Call.SDL_GL_SetAttribute .SDL_GL_CONTEXT_PROFILE_MASK SDL_GL_CONTEXT_PROFILE_CORE,
   Call.SDL_GL_SetAttribute .SDL_GL_DOUBLEBUFFER 1,
   Call.SDL_GL_CreateContext w.SDL_CreateWindow,
   Call.glewInit,
   Call.create_shader .GL_FRAGMENT_SHADER,
   Call.create_shader .GL_VERTEX_SHADER,
   Call.create_program (w.gl.glCreateShader .GL_VERTEX_SHADER)
     (w.gl.glCreateShader .GL_FRAGMENT_SHADER),
   Call.glGenVertexArrays 1,
   Call.glClearColor]

/-! ## Concrete worlds -/

/-- An LP64 platform with the values of libstdc++. -/
def lp64 : Platform := ⟨64, 2 ^ 62 - 1, "basic_string::_M_replace_aux".toList⟩

/-- A driver on which every compilation and the link succeed, with empty logs. -/
def good_driver : Driver where
  glCreateShader := fun t => match t with
    | .GL_FRAGMENT_SHADER => 1
    | .GL_VERTEX_SHADER => 2
  compile := fun _ _ => ⟨1, 0, []⟩
  glCreateProgram := 3
  link := fun _ _ _ => ⟨1, 0, []⟩
  glGenVertexArrays := 1

/-- A driver on which every compilation fails with the info log `error` (reported length
6) and the link fails with the info log `mismatch` (reported length 9). -/
def failing_driver : Driver where
  glCreateShader := fun t => match t with
    | .GL_FRAGMENT_SHADER => 1
    | .GL_VERTEX_SHADER => 2
  compile := fun _ _ => ⟨0, 6, "error".toList⟩
  glCreateProgram := 3
  link := fun _ _ _ => ⟨0, 9, "mismatch".toList⟩
  glGenVertexArrays := 1

/-- A world in which every step of the bootstrap succeeds; the first two iterations of the
loop find a key event (type 0x300) and an empty queue, the third finds a quit event
followed by a key event. -/
def good_world : World where
  platform := lp64
  gl := good_driver
  SDL_Init := 0
  SDL_GetError := "no video device".toList
  SDL_CreateWindow := 1000
  SDL_GL_CreateContext := 2000
  glewInit := 0
  glewGetErrorString := fun _ => "Missing GL version".toList
  GLEW_VERSION_3_3 := true
  events := [[⟨0x300⟩], [], [⟨SDL_QUIT⟩, ⟨0x300⟩]]

/-- State `WindowCreated` of the bootstrap: video initialisation and window creation
succeeded. -/
def window_created (w : World) : Prop := w.SDL_Init = 0 ∧ w.SDL_CreateWindow ≠ 0

/-- State `ContextCreated` of the bootstrap: moreover the context was created. -/
def context_created (w : World) : Prop := window_created w ∧ w.SDL_GL_CreateContext ≠ 0

/-- State `DriverLoaded` of the bootstrap: moreover the function table was loaded and
OpenGL 3.3 is supported. -/
def driver_loaded (w : World) : Prop :=
  context_created w ∧ w.glewInit = GLEW_NO_ERROR ∧ w.GLEW_VERSION_3_3 = true

instance (w : World) : Decidable (window_created w) :=
  inferInstanceAs (Decidable (w.SDL_Init = 0 ∧ w.SDL_CreateWindow ≠ 0))

instance (w : World) : Decidable (context_created w) :=
  inferInstanceAs (Decidable (window_created w ∧ w.SDL_GL_CreateContext ≠ 0))

instance (w : World) : Decidable (driver_loaded w) :=
  inferInstanceAs
    (Decidable (context_created w ∧ w.glewInit = GLEW_NO_ERROR ∧ w.GLEW_VERSION_3_3 = true))

/-- A driver on which every compilation fails and reports no info log (length 0). -/
def no_log_driver : Driver where
  glCreateShader := fun t => match t with
    | .GL_FRAGMENT_SHADER => 1
    | .GL_VERTEX_SHADER => 2
  compile := fun _ _ => ⟨0, 0, []⟩
  glCreateProgram := 3
  link := fun _ _ _ => ⟨1, 0, []⟩
  glGenVertexArrays := 1

/-- A driver that allocates the program handle 4000000000, above 2 ^ 31. -/
def high_handle_driver : Driver where
  glCreateShader := fun t => match t with
    | .GL_FRAGMENT_SHADER => 1
    | .GL_VERTEX_SHADER => 2
  compile := fun _ _ => ⟨1, 0, []⟩
  glCreateProgram := 4000000000
  link := fun _ _ _ => ⟨1, 0, []⟩
  glGenVertexArrays := 1

/-- A driver on which the fragment shader compiles and the vertex shader does not. -/
def vertex_failing_driver : Driver where
  glCreateShader := fun t => match t with
    | .GL_FRAGMENT_SHADER => 1
    | .GL_VERTEX_SHADER => 2
  compile := fun shader _ => if shader = 1 then ⟨1, 0, []⟩ else ⟨0, 6, "error".toList⟩
  glCreateProgram := 3
  link := fun _ _ _ => ⟨1, 0, []⟩
  glGenVertexArrays := 1

/-- A driver on which both shaders compile and the link fails with the info log
`mismatch` (reported length 9). -/
def link_failing_driver : Driver where
  glCreateShader := fun t => match t with
    | .GL_FRAGMENT_SHADER => 1
    | .GL_VERTEX_SHADER => 2
  compile := fun _ _ => ⟨1, 0, []⟩
  glCreateProgram := 3
  link := fun _ _ _ => ⟨0, 9, "mismatch".toList⟩
  glGenVertexArrays := 1

/-! ## Lemmas on the shaders -/

theorem round_half_even_nonneg (m : ℚ) (hm : 0 ≤ m) : 0 ≤ round_half_even m := by
  have hf : 0 ≤ ⌊m⌋ := Int.floor_nonneg.mpr hm
  unfold round_half_even
  split_ifs <;> omega

theorem round_half_even_le (m : ℚ) (hm : 0 ≤ m) : (round_half_even m : ℚ) ≤ 2 * m := by
  have hf : (0 : ℚ) ≤ ⌊m⌋ := by exact_mod_cast Int.floor_nonneg.mpr hm
  have hle : (⌊m⌋ : ℚ) ≤ m := Int.floor_le m
  unfold round_half_even
  split_ifs with h1 h2 h3
  · linarith
  · push_cast
    linarith
  · linarith
  · push_cast
    have : (1 : ℚ) / 2 ≤ m - ⌊m⌋ := not_lt.mp h1
    linarith

theorem round_half_even_eq (m : ℚ) (n : ℤ) (h : |m - n| < 1 / 2) : round_half_even m = n := by
  rw [abs_lt] at h
  obtain ⟨h1, h2⟩ := h
  by_cases hn : (n : ℚ) ≤ m
  · have hf : ⌊m⌋ = n := by
      rw [Int.floor_eq_iff]
      constructor <;> linarith
    unfold round_half_even
    rw [hf, if_pos (by linarith)]
  · have hf : ⌊m⌋ = n - 1 := by
      rw [Int.floor_eq_iff]
      push_cast
      constructor <;> linarith
    unfold round_half_even
    rw [hf, if_neg (by push_cast; linarith), if_pos (by push_cast; linarith)]
    ring

theorem binary32_round_nonneg (q : ℚ) (hq : 0 ≤ q) : 0 ≤ binary32_round q := by
  unfold binary32_round
  have hu : (0 : ℚ) < 2 ^ binary32_quantum q := by positivity
  have hm : 0 ≤ q / 2 ^ binary32_quantum q := div_nonneg hq hu.le
  have hn : (0 : ℚ) ≤ round_half_even (q / 2 ^ binary32_quantum q) := by
    exact_mod_cast round_half_even_nonneg _ hm
  positivity

theorem binary32_round_le (q : ℚ) (hq : 0 ≤ q) : binary32_round q ≤ 2 * q := by
  unfold binary32_round
  have hu : (0 : ℚ) < 2 ^ binary32_quantum q := by positivity
  have hm : 0 ≤ q / 2 ^ binary32_quantum q := div_nonneg hq hu.le
  have h := round_half_even_le _ hm
  calc (round_half_even (q / 2 ^ binary32_quantum q) : ℚ) * 2 ^ binary32_quantum q
      ≤ 2 * (q / 2 ^ binary32_quantum q) * 2 ^ binary32_quantum q :=
        mul_le_mul_of_nonneg_right h hu.le
    _ = 2 * q := by field_simp

theorem log_two_eq (a : ℚ) (k : ℤ) (hlo : (2 : ℚ) ^ k ≤ a) (hhi : a < (2 : ℚ) ^ (k + 1)) :
    Int.log 2 a = k := by
  have hpos : 0 < a := lt_of_lt_of_le (by positivity) hlo
  have h1 : k ≤ Int.log 2 a := (Int.zpow_le_iff_le_log (by norm_num) hpos).mp (by exact_mod_cast hlo)
  have h2 : Int.log 2 a < k + 1 := (Int.lt_zpow_iff_log_lt (by norm_num) hpos).mp (by exact_mod_cast hhi)
  omega

theorem binary32_round_eval (q : ℚ) (k e n : ℤ) (hlo : (2 : ℚ) ^ k ≤ |q|)
    (hhi : |q| < (2 : ℚ) ^ (k + 1)) (he : max (k - 23) (-149) = e)
    (hn : |q / 2 ^ e - n| < 1 / 2) : binary32_round q = n * 2 ^ e := by
  unfold binary32_round binary32_quantum
  rw [log_two_eq _ k hlo hhi, he, round_half_even_eq _ n hn]

theorem binary32_round_zero : binary32_round 0 = 0 := by
  unfold binary32_round
  have : round_half_even 0 = 0 := round_half_even_eq 0 0 (by norm_num)
  simp [this]

theorem round_point_seven : binary32_round (11744051 / 16777216 * 10) = 7 := by
  rw [binary32_round_eval _ 2 (-21) 14680064 (by norm_num [abs_of_pos])
    (by norm_num [abs_of_pos]) (by decide) (by norm_num [abs_lt])]
  norm_num


theorem glsl_mod_two_eq_zero_iff (a : ℤ) : glsl_mod a 2 = 0 ↔ Even a := by
  unfold glsl_mod
  rw [← Int.dvd_iff_tmod_eq_zero, even_iff_two_dvd]

theorem white_ne_black : white ≠ black := by decide

theorem FLT_MAX_ge : (2 : ℚ) ^ 31 ≤ FLT_MAX := by
  unfold FLT_MAX
  norm_num

theorem float_mul_of_bounds (a b : ℚ) (h0 : 0 ≤ a * b)
    (h : ⌊binary32_round (a * b)⌋ < 2 ^ 31) :
    float_mul a b = some (binary32_round (a * b)) := by
  have hr := binary32_round_nonneg _ h0
  have hlt : binary32_round (a * b) < (⌊binary32_round (a * b)⌋ : ℚ) + 1 := Int.lt_floor_add_one _
  have hc : (⌊binary32_round (a * b)⌋ : ℚ) + 1 ≤ 2 ^ 31 := by exact_mod_cast h
  have := FLT_MAX_ge
  unfold float_mul
  rw [abs_of_nonneg hr, if_pos (by linarith)]

theorem glsl_int_of_bounds (f : ℚ) (h0 : 0 ≤ f) (h : ⌊f⌋ < 2 ^ 31) :
    glsl_int f = some ⌊f⌋ := by
  have hf : 0 ≤ ⌊f⌋ := Int.floor_nonneg.mpr h0
  unfold glsl_int truncate
  rw [if_pos h0, if_pos ⟨by omega, h⟩]

theorem int_add_of_bounds (a b : ℤ) (h0 : 0 ≤ a + b) (h : a + b < 2 ^ 31) :
    int_add a b = a + b := by
  unfold int_add
  rw [Int.emod_eq_of_lt (by omega) (by omega)]
  ring

theorem fragment_main_of_bounds (x y : ℚ) (hx : 0 ≤ x) (hy : 0 ≤ y)
    (h : ⌊binary32_round (x * 10)⌋ + ⌊binary32_round (y * 10)⌋ < 2 ^ 31) :
    fragment_main ⟨x, y⟩ =
      some (if Even (⌊binary32_round (x * 10)⌋ + ⌊binary32_round (y * 10)⌋) then white
        else black) := by
  have hx0 : 0 ≤ x * 10 := by positivity
  have hy0 : 0 ≤ y * 10 := by positivity
  have hrx := binary32_round_nonneg _ hx0
  have hry := binary32_round_nonneg _ hy0
  have hfx : 0 ≤ ⌊binary32_round (x * 10)⌋ := Int.floor_nonneg.mpr hrx
  have hfy : 0 ≤ ⌊binary32_round (y * 10)⌋ := Int.floor_nonneg.mpr hry
  have h1 := float_mul_of_bounds x 10 hx0 (by omega)
  have h2 := float_mul_of_bounds y 10 hy0 (by omega)
  have h3 := glsl_int_of_bounds _ hrx (by omega)
  have h4 := glsl_int_of_bounds _ hry (by omega)
  have h5 := int_add_of_bounds _ _ (by omega) h
  unfold fragment_main
  simp only [h1, h2, h3, h4, h5, glsl_mod_two_eq_zero_iff, white, black]
  split_ifs <;> rfl

theorem fragment_main_of_values (x y fx fy : ℚ) (ix iy : ℤ)
    (hfx : binary32_round (x * 10) = fx) (hfy : binary32_round (y * 10) = fy)
    (hmx : |fx| ≤ FLT_MAX) (hmy : |fy| ≤ FLT_MAX)
    (hix : truncate fx = ix) (hiy : truncate fy = iy)
    (hrx : -2 ^ 31 ≤ ix ∧ ix < 2 ^ 31) (hry : -2 ^ 31 ≤ iy ∧ iy < 2 ^ 31) :
    fragment_main ⟨x, y⟩ =
      if glsl_mod (int_add ix iy) 2 = 0 then some white else some black := by
  unfold fragment_main float_mul glsl_int
  simp only [hfx, hfy, if_pos hmx, if_pos hmy, hix, hiy, if_pos hrx, if_pos hry, white, black]

theorem round_point_nine : binary32_round (15099494 / 16777216 * 10) = 9 := by
  rw [binary32_round_eval _ 3 (-20) 9437184 (by norm_num [abs_of_pos])
    (by norm_num [abs_of_pos]) (by decide) (by norm_num [abs_lt])]
  norm_num

theorem round_five_eighths : binary32_round (1 / 16 * 10) = 5 / 8 := by
  rw [binary32_round_eval _ (-1) (-24) 10485760 (by norm_num [abs_of_pos])
    (by norm_num [abs_of_pos]) (by decide) (by norm_num [abs_lt])]
  norm_num

theorem round_neg_five_eighths : binary32_round (-1 / 16 * 10) = -5 / 8 := by
  rw [binary32_round_eval _ (-1) (-24) (-10485760) (by norm_num [abs_of_neg])
    (by norm_num [abs_of_neg]) (by decide) (by norm_num [abs_lt])]
  norm_num

theorem round_zero_times : binary32_round (0 * 10) = 0 := by
  rw [zero_mul, binary32_round_zero]

theorem point_seven_is_binary32 :
    binary32_round (11744051 / 16777216) = 11744051 / 16777216 := by
  rw [binary32_round_eval _ (-1) (-24) 11744051 (by norm_num [abs_of_pos])
    (by norm_num [abs_of_pos]) (by decide) (by norm_num [abs_lt])]
  norm_num

theorem fragment_main_point_seven : fragment_main ⟨11744051 / 16777216, 1 / 16⟩ = some black := by
  rw [fragment_main_of_values _ _ 7 (5 / 8) 7 0 round_point_seven round_five_eighths
    (by norm_num [FLT_MAX, abs_of_pos]) (by norm_num [FLT_MAX, abs_of_pos])
    (by norm_num [truncate]) (by
      unfold truncate
      rw [if_pos (by norm_num), Int.floor_eq_iff]
      norm_num)
    (by decide) (by decide)]
  decide

theorem fragment_main_left : fragment_main ⟨-1 / 16, 0⟩ = some white := by
  rw [fragment_main_of_values _ _ (-5 / 8) 0 0 0 round_neg_five_eighths round_zero_times
    (by norm_num [FLT_MAX, abs_of_neg]) (by norm_num [FLT_MAX])
    (by
      unfold truncate
      rw [if_neg (by norm_num), Int.ceil_eq_iff]
      norm_num)
    (by norm_num [truncate])
    (by decide) (by decide)]
  decide

theorem nine_tenths_is_binary32 :
    binary32_round (15099494 / 16777216) = 15099494 / 16777216 := by
  rw [binary32_round_eval _ (-1) (-24) 15099494 (by norm_num [abs_of_pos])
    (by norm_num [abs_of_pos]) (by decide) (by norm_num [abs_lt])]
  norm_num

theorem sixteenth_is_binary32 : binary32_round (1 / 16) = 1 / 16 := by
  rw [binary32_round_eval _ (-4) (-27) 8388608 (by norm_num [abs_of_pos])
    (by norm_num [abs_of_pos]) (by decide) (by norm_num [abs_lt])]
  norm_num

theorem neg_sixteenth_is_binary32 : binary32_round (-1 / 16) = -1 / 16 := by
  rw [binary32_round_eval _ (-4) (-27) (-8388608) (by norm_num [abs_of_neg])
    (by norm_num [abs_of_neg]) (by decide) (by norm_num [abs_lt])]
  norm_num

theorem fragment_main_nine_tenths :
    fragment_main ⟨15099494 / 16777216, 0⟩ = some black := by
  rw [fragment_main_of_values _ _ 9 0 9 0 round_point_nine round_zero_times
    (by norm_num [FLT_MAX, abs_of_pos]) (by norm_num [FLT_MAX])
    (by norm_num [truncate]) (by norm_num [truncate])
    (by decide) (by decide)]
  decide

theorem floor_of_quotient (q : ℚ) (n : ℤ) (h1 : (n : ℚ) ≤ q) (h2 : q < n + 1) : ⌊q⌋ = n := by
  rw [Int.floor_eq_iff]
  exact ⟨h1, h2⟩

theorem floor_round_five_quarters : ⌊binary32_round (1 / 8 * 10)⌋ = 1 := by
  rw [binary32_round_eval _ 0 (-23) 10485760 (by norm_num [abs_of_pos])
    (by norm_num [abs_of_pos]) (by decide) (by norm_num [abs_lt])]
  exact floor_of_quotient _ 1 (by norm_num) (by norm_num)

theorem floor_round_five_halves : ⌊binary32_round (1 / 4 * 10)⌋ = 2 := by
  rw [binary32_round_eval _ 1 (-22) 10485760 (by norm_num [abs_of_pos])
    (by norm_num [abs_of_pos]) (by decide) (by norm_num [abs_lt])]
  exact floor_of_quotient _ 2 (by norm_num) (by norm_num)

theorem floor_round_fifteen_quarters : ⌊binary32_round (3 / 8 * 10)⌋ = 3 := by
  rw [binary32_round_eval _ 1 (-22) 15728640 (by norm_num [abs_of_pos])
    (by norm_num [abs_of_pos]) (by decide) (by norm_num [abs_lt])]
  exact floor_of_quotient _ 3 (by norm_num) (by norm_num)

theorem floor_round_five : ⌊binary32_round (1 / 2 * 10)⌋ = 5 := by
  rw [binary32_round_eval _ 2 (-21) 10485760 (by norm_num [abs_of_pos])
    (by norm_num [abs_of_pos]) (by decide) (by norm_num [abs_lt])]
  exact floor_of_quotient _ 5 (by norm_num) (by norm_num)

/-! ## Lemmas on `create_shader` and `create_program` -/

theorem create_shader_ok (P : Platform) (gl : Driver) (ty : ShaderType) (src : List Char)
    (h : (gl.compile (gl.glCreateShader ty) src).status ≠ GL_FALSE) :
    create_shader P gl ty src = .ok (gl.glCreateShader ty) := by
  simp [create_shader, h]

theorem create_shader_error (P : Platform) (gl : Driver) (ty : ShaderType) (src : List Char)
    (h : (gl.compile (gl.glCreateShader ty) src).status = GL_FALSE) :
    ∃ e, create_shader P gl ty src = .error e := by
  simp only [create_shader, h, if_true]
  split
  · exact ⟨_, rfl⟩
  · exact ⟨_, rfl⟩

theorem create_shader_eq_ok (P : Platform) (gl : Driver) (ty : ShaderType) (src : List Char)
    (h : Nat) (hok : create_shader P gl ty src = .ok h) : h = gl.glCreateShader ty := by
  by_cases hs : (gl.compile (gl.glCreateShader ty) src).status = GL_FALSE
  · obtain ⟨e, he⟩ := create_shader_error P gl ty src hs
    rw [he] at hok
    cases hok
  · rw [create_shader_ok P gl ty src hs] at hok
    cases hok
    rfl

theorem to_size_t_natCast (P : Platform) (n : Nat) (h : n < 2 ^ P.size_t_bits) :
    to_size_t P (n : Int) = n := by
  unfold to_size_t
  have : ((n : Int) % 2 ^ P.size_t_bits) = n := by
    apply Int.emod_eq_of_lt (by positivity)
    exact_mod_cast h
  rw [this]
  simp

theorem neg_one_emod (m : Int) (hm : 0 < m) : (-1 : Int) % m = m - 1 := by
  have h : (-1 : Int) % m = (-1 + m) % m := (Int.add_emod_self).symm
  rw [h, Int.emod_eq_of_lt (by omega) (by omega)]
  ring

theorem to_size_t_neg_one (P : Platform) : to_size_t P (-1) = 2 ^ P.size_t_bits - 1 := by
  unfold to_size_t
  have hpos : (0 : Int) < 2 ^ P.size_t_bits := by positivity
  rw [neg_one_emod _ hpos]
  have h1 : 1 ≤ 2 ^ P.size_t_bits := Nat.one_le_two_pow
  have h2 : ((2 : Int) ^ P.size_t_bits - 1) = ((2 ^ P.size_t_bits - 1 : Nat) : Int) := by
    push_cast [h1]
    rfl
  rw [h2, Int.toNat_ofNat]

theorem glGetInfoLog_short_buffer (L : List Char) (hL : L ≠ []) :
    glGetInfoLog L (L.length : Int) (List.replicate L.length NUL) = L.dropLast ++ [NUL] := by
  have hpos : 0 < L.length := List.length_pos.mpr hL
  unfold glGetInfoLog
  have h1 : ¬ ((L.length : Int) ≤ 0) := by omega
  simp only [h1, if_false, Int.toNat_ofNat]
  have h2 : min (L.length - 1) L.length = L.length - 1 := by omega
  rw [h2, List.dropLast_eq_take]
  have h3 : L.length - 1 + 1 = L.length := by omega
  simp [h3]

theorem failure_block (P : Platform) (L : List Char) (hL : L ≠ [])
    (hmax : L.length ≤ P.string_max_size) (hbits : L.length < 2 ^ P.size_t_bits) :
    string_resize P [] (to_size_t P (((L.length + 1 : Nat) : Int) - 1)) =
      .ok (List.replicate L.length NUL) := by
  have hpos : 0 < L.length := List.length_pos.mpr hL
  have : (((L.length + 1 : Nat) : Int) - 1) = (L.length : Int) := by push_cast; ring
  rw [this, to_size_t_natCast P _ hbits]
  unfold string_resize
  have h1 : ¬ (L.length > P.string_max_size) := by omega
  have h2 : ¬ (L.length ≤ ([] : List Char).length) := by
    rw [List.length_nil]
    omega
  simp only [h1, h2, if_false]
  simp

theorem create_shader_failure_message (P : Platform) (gl : Driver) (ty : ShaderType)
    (src L : List Char) (hL : L ≠ [])
    (hstatus : (gl.compile (gl.glCreateShader ty) src).status = GL_FALSE)
    (hlog : (gl.compile (gl.glCreateShader ty) src).info_log = L)
    (hlen : (gl.compile (gl.glCreateShader ty) src).info_log_length = L.length + 1)
    (hmax : L.length ≤ P.string_max_size) (hbits : L.length < 2 ^ P.size_t_bits) :
    create_shader P gl ty src =
      .error (.runtime_error ("Failed to create shader: ".toList ++ (L.dropLast ++ [NUL]))) := by
  simp only [create_shader, hstatus, if_true, hlen, hlog]
  rw [failure_block P L hL hmax hbits]
  simp only []
  have : (((L.length + 1 : Nat) : Int) - 1) = (L.length : Int) := by push_cast; ring
  rw [this, glGetInfoLog_short_buffer L hL]

theorem to_GLuint_to_GLint (h : Nat) (hh : h < 2 ^ 32) : to_GLuint (to_GLint h) = h := by
  unfold to_GLuint to_GLint
  rw [Nat.mod_eq_of_lt hh]
  split <;> omega

theorem create_program_ok (P : Platform) (gl : Driver) (vs fs : Nat)
    (hh : gl.glCreateProgram < 2 ^ 32)
    (h : (gl.link gl.glCreateProgram vs fs).status ≠ GL_FALSE) :
    create_program P gl vs fs = .ok gl.glCreateProgram := by
  simp [create_program, to_GLuint_to_GLint _ hh, h]

theorem create_program_failure_message (P : Platform) (gl : Driver) (vs fs : Nat)
    (L : List Char) (hL : L ≠ []) (hh : gl.glCreateProgram < 2 ^ 32)
    (hstatus : (gl.link gl.glCreateProgram vs fs).status = GL_FALSE)
    (hlog : (gl.link gl.glCreateProgram vs fs).info_log = L)
    (hlen : (gl.link gl.glCreateProgram vs fs).info_log_length = L.length + 1)
    (hmax : L.length ≤ P.string_max_size) (hbits : L.length < 2 ^ P.size_t_bits) :
    create_program P gl vs fs =
      .error (.runtime_error ("Failed to create program: ".toList ++ (L.dropLast ++ [NUL]))) := by
  simp only [create_program, to_GLuint_to_GLint _ hh, hstatus, if_true, hlen, hlog]
  rw [failure_block P L hL hmax hbits]
  simp only []
  have : (((L.length + 1 : Nat) : Int) - 1) = (L.length : Int) := by push_cast; ring
  rw [this, glGetInfoLog_short_buffer L hL]

/-! ## Lemmas on the render loop and the bootstrap -/

theorem poll_events_fst (queue : List SDL_Event) (running : Bool) :
    (poll_events queue running).1 = [] := by
  induction queue generalizing running with
  | nil => rfl
  | cons e q ih => exact ih _

theorem poll_events_false (queue : List SDL_Event) : (poll_events queue false).2 = false := by
  induction queue with
  | nil => rfl
  | cons e q ih =>
    unfold poll_events
    simpa using ih

theorem poll_events_snd_false_iff (queue : List SDL_Event) :
    (poll_events queue true).2 = false ↔ ∃ e ∈ queue, e.type = SDL_QUIT := by
  induction queue with
  | nil => simp [poll_events]
  | cons e q ih =>
    unfold poll_events
    by_cases h : e.type = SDL_QUIT
    · simp [h, poll_events_false]
    · simp [h, ih]

theorem poll_events_no_quit (queue : List SDL_Event)
    (h : ∀ e ∈ queue, e.type ≠ SDL_QUIT) : (poll_events queue true).2 = true := by
  cases hq : (poll_events queue true).2 with
  | true => rfl
  | false =>
    obtain ⟨e, he, hquit⟩ := (poll_events_snd_false_iff queue).mp hq
    exact absurd hquit (h e he)

theorem loop_body_no_quit (s : Locals) (queue : List SDL_Event) (hs : s.running = true)
    (h : ∀ e ∈ queue, e.type ≠ SDL_QUIT) : loop_body s queue = (s, render_frame s, false) := by
  cases s
  simp only at hs
  subst hs
  simp [loop_body, poll_events_no_quit queue h, render_frame]

theorem loop_body_quit (s : Locals) (queue : List SDL_Event) (hs : s.running = true)
    (h : ∃ e ∈ queue, e.type = SDL_QUIT) :
    loop_body s queue = ({ s with running := false }, [], true) := by
  cases s
  simp only at hs
  subst hs
  simp [loop_body, (poll_events_snd_false_iff queue).mpr h]

theorem render_loop_no_quit (s : Locals) (hs : s.running = true)
    (schedule : List (List SDL_Event))
    (h : ∀ queue ∈ schedule, ∀ e ∈ queue, e.type ≠ SDL_QUIT) :
    render_loop s schedule =
      (s, (List.replicate schedule.length (render_frame s)).flatten, false) := by
  induction schedule with
  | nil => simp [render_loop, hs]
  | cons q rest ih =>
    have hq := loop_body_no_quit s q hs (h q (List.mem_cons_self _ _))
    have hrest := ih (fun q' hq' => h q' (List.mem_cons_of_mem _ hq'))
    simp [render_loop, hs, hq, hrest, List.replicate_succ]

theorem render_loop_quit (s : Locals) (hs : s.running = true)
    (before : List (List SDL_Event)) (queue : List SDL_Event) (after : List (List SDL_Event))
    (h : ∀ q ∈ before, ∀ e ∈ q, e.type ≠ SDL_QUIT) (hq : ∃ e ∈ queue, e.type = SDL_QUIT) :
    render_loop s (before ++ queue :: after) =
      ({ s with running := false },
        (List.replicate before.length (render_frame s)).flatten, true) := by
  induction before with
  | nil => simp [render_loop, hs, loop_body_quit s queue hs hq]
  | cons q rest ih =>
    have hq1 := loop_body_no_quit s q hs (h q (List.mem_cons_self _ _))
    have hrest := ih (fun q' hq' => h q' (List.mem_cons_of_mem _ hq'))
    simp [render_loop, hs, hq1, hrest, List.replicate_succ]

theorem bootstrap_ok (w : World) (t : List Call) (s : Locals) (h : bootstrap w = (t, .ok s)) :
    t = init_calls w ∧ s.running = true ∧ s.window = w.SDL_CreateWindow ∧
      s.gl_context = w.SDL_GL_CreateContext ∧ s.vertex_array = w.gl.glGenVertexArrays ∧
      create_program w.platform w.gl s.vertex_shader s.fragment_shader = .ok s.program := by
  unfold bootstrap at h
  simp only [] at h
  split at h
  · cases h
  split at h
  · cases h
  split at h
  · cases h
  split at h
  · cases h
  split at h
  · cases h
  split at h
  · cases h
  rename_i fs hfs
  split at h
  · cases h
  rename_i vs hvs
  split at h
  · cases h
  rename_i p hp
  have hfs2 := create_shader_eq_ok _ _ _ _ _ hfs
  have hvs2 := create_shader_eq_ok _ _ _ _ _ hvs
  cases h
  subst hfs2 hvs2
  exact ⟨rfl, rfl, rfl, rfl, rfl, hp⟩

theorem main_of_bootstrap_error (w : World) (t : List Call) (e : Exception)
    (h : bootstrap w = (t, .error e)) : main w = ⟨t, [e.what], some EXIT_FAILURE⟩ := by
  simp [main, h]

/-! ## Claim C1: the floor rule of the fragment shader -/

/-- C1, as stated, fails at two positions with binary32 coordinates. At (-1/16, 0) the sum
floor(x*10) + floor(y*10) is -1, which is odd, and the fragment shader emits opaque white,
not opaque black, because `int(-0.625)` is 0 and not -1. At (15099494/16777216, 0), the
binary32 value nearest to 0.9, the sum floor(x*10) + floor(y*10) is 8, which is even, and
the fragment shader emits opaque black, not opaque white, because the product `x * 10.0`
rounds to 9.0. -/
theorem floor_rule_fails_left_of_origin_and_by_rounding :
    (binary32_round (-1 / 16) = -1 / 16 ∧
      Odd (⌊(-1 / 16 : ℚ) * 10⌋ + ⌊(0 : ℚ) * 10⌋) ∧
      fragment_main ⟨-1 / 16, 0⟩ = some (Vec4.mk 1 1 1 1)) ∧
    (binary32_round (15099494 / 16777216) = 15099494 / 16777216 ∧
      Even (⌊(15099494 / 16777216 : ℚ) * 10⌋ + ⌊(0 : ℚ) * 10⌋) ∧
      fragment_main ⟨15099494 / 16777216, 0⟩ = some (Vec4.mk 0 0 0 1)) ∧
    Vec4.mk 1 1 1 1 ≠ Vec4.mk 0 0 0 1 := by
  have f0 : ⌊(0 : ℚ) * 10⌋ = 0 := floor_of_quotient _ 0 (by norm_num) (by norm_num)
  have f1 : ⌊(-1 / 16 : ℚ) * 10⌋ = -1 := floor_of_quotient _ (-1) (by norm_num) (by norm_num)
  have f2 : ⌊(15099494 / 16777216 : ℚ) * 10⌋ = 8 :=
    floor_of_quotient _ 8 (by norm_num) (by norm_num)
  refine ⟨⟨neg_sixteenth_is_binary32, ?_, fragment_main_left⟩,
    ⟨nine_tenths_is_binary32, ?_, fragment_main_nine_tenths⟩, white_ne_black⟩
  · rw [f1, f0]
    decide
  · rw [f2, f0]
    decide

/-- C1, amended: for every fragment position (x, y) with x ≥ 0 and y ≥ 0, writing X and Y
for the products x*10 and y*10 rounded to binary32 (to nearest, ties to even), and
provided floor(X) + floor(Y) is below 2 ^ 31, the colour the fragment shader emits is
opaque white (1,1,1,1) when floor(X) + floor(Y) is even and opaque black (0,0,0,1) when it
is odd. -/
theorem fragment_color_floor_rule_of_nonneg (x y : ℚ) (hx : 0 ≤ x) (hy : 0 ≤ y)
    (hsum : ⌊binary32_round (x * 10)⌋ + ⌊binary32_round (y * 10)⌋ < 2 ^ 31) :
    (Even (⌊binary32_round (x * 10)⌋ + ⌊binary32_round (y * 10)⌋) →
        fragment_main ⟨x, y⟩ = some (Vec4.mk 1 1 1 1)) ∧
      (Odd (⌊binary32_round (x * 10)⌋ + ⌊binary32_round (y * 10)⌋) →
        fragment_main ⟨x, y⟩ = some (Vec4.mk 0 0 0 1)) := by
  rw [fragment_main_of_bounds x y hx hy hsum]
  constructor
  · intro h
    rw [if_pos h]
    rfl
  · intro h
    rw [if_neg (Int.not_even_iff_odd.mpr h)]
    rfl

/-- C1, amended, at the positions (1/8, 1/4) (products 1.25 and 2.5, floors 1 and 2, odd
sum, black) and (1/8, 3/8) (products 1.25 and 3.75, floors 1 and 3, even sum, white). -/
theorem fragment_color_floor_rule_of_nonneg_witness :
    fragment_main ⟨1 / 8, 1 / 4⟩ = some (Vec4.mk 0 0 0 1) ∧
      fragment_main ⟨1 / 8, 3 / 8⟩ = some (Vec4.mk 1 1 1 1) := by
  refine ⟨?_, ?_⟩
  · refine (fragment_color_floor_rule_of_nonneg (1 / 8) (1 / 4) (by norm_num) (by norm_num)
      ?_).2 ?_
    · rw [floor_round_five_quarters, floor_round_five_halves]
      decide
    · rw [floor_round_five_quarters, floor_round_five_halves]
      decide
  · refine (fragment_color_floor_rule_of_nonneg (1 / 8) (3 / 8) (by norm_num) (by norm_num)
      ?_).1 ?_
    · rw [floor_round_five_quarters, floor_round_fifteen_quarters]
      decide
    · rw [floor_round_five_quarters, floor_round_fifteen_quarters]
      decide

/-! ## Claim C2: the compile log in the error -/

/-- C2, the code at a failing input: the fragment shader fails to compile (status
`GL_FALSE`) and the driver holds the info log `error`, reporting the length 6. `create_shader`
passes the buffer size 5 to `glGetShaderInfoLog`, which counts the terminator, so only
`erro` is copied: the exception carries `Failed to create shader: erro` followed by a
terminator, `what()` reads `Failed to create shader: erro`, and the log `error` occurs
nowhere in the message. -/
theorem create_shader_loses_last_log_character :
    (failing_driver.compile (failing_driver.glCreateShader .GL_FRAGMENT_SHADER)
        fragment_source).status = GL_FALSE ∧
      (failing_driver.compile (failing_driver.glCreateShader .GL_FRAGMENT_SHADER)
        fragment_source).info_log = "error".toList ∧
      (failing_driver.compile (failing_driver.glCreateShader .GL_FRAGMENT_SHADER)
        fragment_source).info_log_length = "error".toList.length + 1 ∧
      create_shader lp64 failing_driver .GL_FRAGMENT_SHADER fragment_source =
        .error (.runtime_error ("Failed to create shader: erro".toList ++ [NUL])) ∧
      (Exception.runtime_error ("Failed to create shader: erro".toList ++ [NUL])).what =
        "Failed to create shader: erro".toList ∧
      ¬ ("error".toList <:+: "Failed to create shader: erro".toList ++ [NUL]) := by
  refine ⟨rfl, rfl, rfl, rfl, ?_, by decide⟩
  decide

/-! ## Claim C3: the link log in the error -/

/-- C3, the code at a failing input: the link fails (status `GL_FALSE`) and the driver
holds the info log `mismatch`, reporting the length 9. `create_program` passes the buffer
size 8 to `glGetProgramInfoLog`, which counts the terminator, so only `mismatc` is copied:
the exception carries `Failed to create program: mismatc` followed by a terminator, and
the log `mismatch` occurs nowhere in the message. -/
theorem create_program_loses_last_log_character :
    (failing_driver.link failing_driver.glCreateProgram 2 1).status = GL_FALSE ∧
      (failing_driver.link failing_driver.glCreateProgram 2 1).info_log = "mismatch".toList ∧
      (failing_driver.link failing_driver.glCreateProgram 2 1).info_log_length =
        "mismatch".toList.length + 1 ∧
      create_program lp64 failing_driver 2 1 =
        .error (.runtime_error ("Failed to create program: mismatc".toList ++ [NUL])) ∧
      (Exception.runtime_error ("Failed to create program: mismatc".toList ++ [NUL])).what =
        "Failed to create program: mismatc".toList ∧
      ¬ ("mismatch".toList <:+: "Failed to create program: mismatc".toList ++ [NUL]) := by
  refine ⟨rfl, rfl, rfl, rfl, ?_, by decide⟩
  decide

/-! ## Claim C4: a quit event ends the run -/

/-- C4: in a run that reaches the render loop, the iteration that finds a quit event in
its pending queue (the iterations before it having found none) issues no call and leaves
the loop; the run then consists of the bootstrap calls, one frame for each earlier
iteration, `SDL_GL_DeleteContext` and then `SDL_DestroyWindow`, nothing is written to the
error stream and the exit status is 0. -/
theorem quit_ends_loop_before_rendering (w : World) (t : List Call) (s : Locals)
    (before : List (List SDL_Event)) (queue : List SDL_Event) (after : List (List SDL_Event))
    (hboot : bootstrap w = (t, .ok s))
    (hevents : w.events = before ++ queue :: after)
    (hbefore : ∀ q ∈ before, ∀ e ∈ q, e.type ≠ SDL_QUIT)
    (hquit : ∃ e ∈ queue, e.type = SDL_QUIT) :
    (loop_body s queue).2.1 = [] ∧ (loop_body s queue).2.2 = true ∧
      main w =
        ⟨t ++ (List.replicate before.length (render_frame s)).flatten ++
            [Call.SDL_GL_DeleteContext s.gl_context, Call.SDL_DestroyWindow s.window],
          [], some 0⟩ := by
  have hs : s.running = true := (bootstrap_ok w t s hboot).2.1
  have hb := loop_body_quit s queue hs hquit
  refine ⟨by rw [hb], by rw [hb], ?_⟩
  simp [main, hboot, hevents, render_loop_quit s hs before queue after hbefore hquit]

/-- C4 in `good_world`: two rendered frames, then the quit event in the third
iteration. -/
theorem quit_ends_loop_before_rendering_witness :
    main good_world =
      ⟨init_calls good_world ++
          [Call.glClear, Call.glUseProgram 3, Call.glBindVertexArray 1,
            Call.glDrawArrays_TRIANGLES 0 3, Call.SDL_GL_SwapWindow 1000,
            Call.glClear, Call.glUseProgram 3, Call.glBindVertexArray 1,
            Call.glDrawArrays_TRIANGLES 0 3, Call.SDL_GL_SwapWindow 1000] ++
          [Call.SDL_GL_DeleteContext 2000, Call.SDL_DestroyWindow 1000],
        [], some 0⟩ :=
  (quit_ends_loop_before_rendering good_world (init_calls good_world)
    ⟨1000, 2000, 1, 2, 3, 1, true⟩ [[⟨0x300⟩], []] [⟨SDL_QUIT⟩, ⟨0x300⟩] [] rfl rfl
    (by decide) (by decide)).2.2

/-! ## Claim C5: initialization failures -/

/-- C5: a failure of any initialization step is fatal. When video initialisation, window
creation, context creation, the function-table load, the OpenGL 3.3 check, the fragment
shader compile, the vertex shader compile or the program link fails (the steps before it
having succeeded), the calls of the run are exactly the calls up to that step (the first
1, 2, 7, 8, 8, 9, 10, 11 of the bootstrap sequence), so no later step runs and no frame is
rendered, the error stream receives exactly the message of the exception, and the exit
status is `EXIT_FAILURE`, which is not 0. -/
theorem initialization_failure_is_fatal (w : World) :
    EXIT_FAILURE ≠ 0 ∧
    (w.SDL_Init ≠ 0 →
      main w = ⟨(init_calls w).take 1, [(sdl2_fail w "SDL_Init: ".toList).what],
        some EXIT_FAILURE⟩) ∧
    (w.SDL_Init = 0 → w.SDL_CreateWindow = 0 →
      main w = ⟨(init_calls w).take 2, [(sdl2_fail w "SDL_CreateWindow: ".toList).what],
        some EXIT_FAILURE⟩) ∧
    (window_created w → w.SDL_GL_CreateContext = 0 →
      main w = ⟨(init_calls w).take 7, [(sdl2_fail w "SDL_GL_CreateContext: ".toList).what],
        some EXIT_FAILURE⟩) ∧
    (context_created w → w.glewInit ≠ GLEW_NO_ERROR →
      main w = ⟨(init_calls w).take 8, [(glew_fail w "glewInit: ".toList w.glewInit).what],
        some EXIT_FAILURE⟩) ∧
    (context_created w → w.glewInit = GLEW_NO_ERROR → w.GLEW_VERSION_3_3 = false →
      main w = ⟨(init_calls w).take 8, ["OpenGL 3.3 is not supported".toList],
        some EXIT_FAILURE⟩) ∧
    (driver_loaded w → ∀ e,
      create_shader w.platform w.gl .GL_FRAGMENT_SHADER fragment_source = .error e →
      main w = ⟨(init_calls w).take 9, [e.what], some EXIT_FAILURE⟩) ∧
    (driver_loaded w → ∀ fragment_shader e,
      create_shader w.platform w.gl .GL_FRAGMENT_SHADER fragment_source = .ok fragment_shader →
      create_shader w.platform w.gl .GL_VERTEX_SHADER vertex_source = .error e →
      main w = ⟨(init_calls w).take 10, [e.what], some EXIT_FAILURE⟩) ∧
    (driver_loaded w → ∀ fragment_shader vertex_shader e,
      create_shader w.platform w.gl .GL_FRAGMENT_SHADER fragment_source = .ok fragment_shader →
      create_shader w.platform w.gl .GL_VERTEX_SHADER vertex_source = .ok vertex_shader →
      create_program w.platform w.gl vertex_shader fragment_shader = .error e →
      main w = ⟨(init_calls w).take 11, [e.what], some EXIT_FAILURE⟩) := by
  refine ⟨by decide, ?_, ?_, ?_, ?_, ?_, ?_, ?_, ?_⟩
  · intro h
    apply main_of_bootstrap_error
    simp [bootstrap, h, init_calls]
  · intro h1 h2
    apply main_of_bootstrap_error
    simp [bootstrap, h1, h2, init_calls]
  · rintro ⟨h1, h2⟩ h3
    apply main_of_bootstrap_error
    simp [bootstrap, h1, h2, h3, init_calls]
  · rintro ⟨⟨h1, h2⟩, h3⟩ h4
    apply main_of_bootstrap_error
    simp [bootstrap, h1, h2, h3, h4, init_calls]
  · rintro ⟨⟨h1, h2⟩, h3⟩ h4 h5
    have hw : (Exception.runtime_error "OpenGL 3.3 is not supported".toList).what =
        "OpenGL 3.3 is not supported".toList := by decide
    rw [← hw]
    apply main_of_bootstrap_error
    simp [bootstrap, h1, h2, h3, h4, h5, init_calls]
  · rintro ⟨⟨⟨h1, h2⟩, h3⟩, h4, h5⟩ e he
    apply main_of_bootstrap_error
    simp [bootstrap, h1, h2, h3, h4, h5, he, init_calls]
  · rintro ⟨⟨⟨h1, h2⟩, h3⟩, h4, h5⟩ fs e hfs he
    apply main_of_bootstrap_error
    simp [bootstrap, h1, h2, h3, h4, h5, hfs, he, init_calls]
  · rintro ⟨⟨⟨h1, h2⟩, h3⟩, h4, h5⟩ fs vs e hfs hvs he
    have hfs2 := create_shader_eq_ok _ _ _ _ _ hfs
    have hvs2 := create_shader_eq_ok _ _ _ _ _ hvs
    subst hfs2 hvs2
    apply main_of_bootstrap_error
    simp [bootstrap, h1, h2, h3, h4, h5, hfs, hvs, he, init_calls]

/-- C5 in eight worlds, each failing at one step of the bootstrap. -/
theorem initialization_failure_is_fatal_witness :
    main { good_world with SDL_Init := -1 } =
        ⟨[Call.SDL_Init], ["SDL_Init: no video device".toList], some 1⟩ ∧
      main { good_world with SDL_CreateWindow := 0 } =
        ⟨(init_calls good_world).take 2, ["SDL_CreateWindow: no video device".toList],
          some 1⟩ ∧
      (main { good_world with SDL_GL_CreateContext := 0 }).stderr =
        ["SDL_GL_CreateContext: no video device".toList] ∧
      (main { good_world with glewInit := 1 }).stderr =
        ["glewInit: Missing GL version".toList] ∧
      (main { good_world with GLEW_VERSION_3_3 := false }).calls.length = 8 ∧
      main { good_world with gl := failing_driver } =
        ⟨(init_calls good_world).take 9, ["Failed to create shader: erro".toList], some 1⟩ ∧
      main { good_world with gl := vertex_failing_driver } =
        ⟨(init_calls good_world).take 10, ["Failed to create shader: erro".toList], some 1⟩ ∧
      main { good_world with gl := link_failing_driver } =
        ⟨(init_calls good_world).take 11, ["Failed to create program: mismatc".toList],
          some 1⟩ :=
  ⟨(initialization_failure_is_fatal { good_world with SDL_Init := -1 }).2.1 (by decide),
   (initialization_failure_is_fatal { good_world with SDL_CreateWindow := 0 }).2.2.1 rfl rfl,
   congrArg Run.stderr
     ((initialization_failure_is_fatal { good_world with SDL_GL_CreateContext := 0 }).2.2.2.1
       ⟨rfl, by decide⟩ rfl),
   congrArg Run.stderr
     ((initialization_failure_is_fatal { good_world with glewInit := 1 }).2.2.2.2.1
       ⟨⟨rfl, by decide⟩, by decide⟩ (by decide)),
   congrArg (fun r => r.calls.length)
     ((initialization_failure_is_fatal { good_world with GLEW_VERSION_3_3 := false }).2.2.2.2.2.1
       ⟨⟨rfl, by decide⟩, by decide⟩ rfl rfl),
   (initialization_failure_is_fatal { good_world with gl := failing_driver }).2.2.2.2.2.2.1
     ⟨⟨⟨rfl, by decide⟩, by decide⟩, rfl, rfl⟩ _ rfl,
   (initialization_failure_is_fatal { good_world with gl := vertex_failing_driver }).2.2.2.2.2.2.2.1
     ⟨⟨⟨rfl, by decide⟩, by decide⟩, rfl, rfl⟩ 1 _ rfl rfl,
   (initialization_failure_is_fatal { good_world with gl := link_failing_driver }).2.2.2.2.2.2.2.2
     ⟨⟨⟨rfl, by decide⟩, by decide⟩, rfl, rfl⟩ 1 2 _ rfl rfl rfl⟩

/-! ## Claim C6: frames of the render loop -/

/-- C6: in a run that reaches the render loop, N iterations that poll no quit event issue
exactly N frames, each being clear, use program, bind vertex array, draw 3 vertices as
triangles from index 0, swap, with the program, vertex-array and window handles of the
bootstrap; the locals (all handles, and `running`) after the N iterations are those before,
and the loop has not ended. -/
theorem frames_without_quit (w : World) (t : List Call) (s : Locals) (N : Nat)
    (schedule : List (List SDL_Event))
    (hboot : bootstrap w = (t, .ok s))
    (hN : schedule.length = N)
    (hno : ∀ q ∈ schedule, ∀ e ∈ q, e.type ≠ SDL_QUIT) :
    render_loop s schedule =
        (s,
          (List.replicate N
            [Call.glClear, Call.glUseProgram s.program, Call.glBindVertexArray s.vertex_array,
              Call.glDrawArrays_TRIANGLES 0 3, Call.SDL_GL_SwapWindow s.window]).flatten,
          false) ∧
      (w.events = schedule →
        main w =
          ⟨t ++ (List.replicate N
              [Call.glClear, Call.glUseProgram s.program,
                Call.glBindVertexArray s.vertex_array,
                Call.glDrawArrays_TRIANGLES 0 3, Call.SDL_GL_SwapWindow s.window]).flatten,
            [], none⟩) := by
  have hs : s.running = true := (bootstrap_ok w t s hboot).2.1
  have hl := render_loop_no_quit s hs schedule hno
  rw [hN] at hl
  refine ⟨hl, ?_⟩
  intro hev
  simp only [main, hboot, hev, hl]
  simp [render_frame]

/-- C6 with the handles of `good_world` and N = 2. -/
theorem frames_without_quit_witness :
    render_loop ⟨1000, 2000, 1, 2, 3, 1, true⟩ [[⟨0x300⟩], []] =
      (⟨1000, 2000, 1, 2, 3, 1, true⟩,
        [Call.glClear, Call.glUseProgram 3, Call.glBindVertexArray 1,
          Call.glDrawArrays_TRIANGLES 0 3, Call.SDL_GL_SwapWindow 1000,
          Call.glClear, Call.glUseProgram 3, Call.glBindVertexArray 1,
          Call.glDrawArrays_TRIANGLES 0 3, Call.SDL_GL_SwapWindow 1000],
        false) :=
  (frames_without_quit good_world (init_calls good_world) ⟨1000, 2000, 1, 2, 3, 1, true⟩ 2
    [[⟨0x300⟩], []] rfl rfl (by decide)).1

/-! ## Claim C7: the fragments of the triangle -/

/-- C7, as stated, fails at the point (11744051/16777216, 1/16) of the drawn triangle,
whose coordinates are binary32 values (the first is the one nearest to 0.7): the
interpolated `pos` equals the position, floor(x*10) + floor(y*10) is 6 + 0, which is even,
and the shader emits opaque black, not opaque white, because the product `x * 10.0` rounds
to 7.0. -/
theorem floor_rule_fails_inside_triangle :
    (0 : ℚ) ≤ 11744051 / 16777216 ∧ (0 : ℚ) ≤ 1 / 16 ∧
      (11744051 / 16777216 + 1 / 16 : ℚ) ≤ 1 ∧
      binary32_round (11744051 / 16777216) = 11744051 / 16777216 ∧
      binary32_round (1 / 16) = 1 / 16 ∧
      interpolated_pos (1 - 11744051 / 16777216 - 1 / 16) (11744051 / 16777216) (1 / 16) =
        ⟨11744051 / 16777216, 1 / 16⟩ ∧
      Even (⌊(11744051 / 16777216 : ℚ) * 10⌋ + ⌊(1 / 16 : ℚ) * 10⌋) ∧
      fragment_main ⟨11744051 / 16777216, 1 / 16⟩ = some (Vec4.mk 0 0 0 1) ∧
      Vec4.mk 0 0 0 1 ≠ Vec4.mk 1 1 1 1 := by
  have f1 : ⌊(11744051 / 16777216 : ℚ) * 10⌋ = 6 :=
    floor_of_quotient _ 6 (by norm_num) (by norm_num)
  have f2 : ⌊(1 / 16 : ℚ) * 10⌋ = 0 := floor_of_quotient _ 0 (by norm_num) (by norm_num)
  refine ⟨by norm_num, by norm_num, by norm_num, point_seven_is_binary32,
    sixteenth_is_binary32, ?_, ?_, fragment_main_point_seven, white_ne_black.symm⟩
  · simp [interpolated_pos, vertex_main, VERTICES]
  · rw [f1, f2]
    decide

/-- C7, amended: at every point (x, y) of the drawn triangle (x ≥ 0, y ≥ 0, x + y ≤ 1, the
convex combination of the vertices (0,0), (1,0), (0,1) with weights 1-x-y, x, y) the
interpolated `pos` equals the position (x, y); writing X and Y for the products x*10 and
y*10 rounded to binary32 (to nearest, ties to even), neither product overflows, the
conversions `int(X)` and `int(Y)` are defined and equal floor(X) and floor(Y), and the
shader emits white if floor(X) + floor(Y) is even and black otherwise. -/
theorem triangle_fragment_classified_by_floor (x y : ℚ) (hx : 0 ≤ x) (hy : 0 ≤ y)
    (hxy : x + y ≤ 1) :
    0 ≤ 1 - x - y ∧
      covered_position (1 - x - y) x y = ⟨x, y⟩ ∧
      interpolated_pos (1 - x - y) x y = ⟨x, y⟩ ∧
      float_mul x 10 = some (binary32_round (x * 10)) ∧
      float_mul y 10 = some (binary32_round (y * 10)) ∧
      glsl_int (binary32_round (x * 10)) = some ⌊binary32_round (x * 10)⌋ ∧
      glsl_int (binary32_round (y * 10)) = some ⌊binary32_round (y * 10)⌋ ∧
      fragment_main (interpolated_pos (1 - x - y) x y) =
        some (if Even (⌊binary32_round (x * 10)⌋ + ⌊binary32_round (y * 10)⌋) then
          Vec4.mk 1 1 1 1 else Vec4.mk 0 0 0 1) := by
  have hp : interpolated_pos (1 - x - y) x y = ⟨x, y⟩ := by
    simp [interpolated_pos, vertex_main, VERTICES]
  have hx0 : 0 ≤ x * 10 := by positivity
  have hy0 : 0 ≤ y * 10 := by positivity
  have hrx := binary32_round_nonneg _ hx0
  have hry := binary32_round_nonneg _ hy0
  have hbx : ⌊binary32_round (x * 10)⌋ ≤ 20 := by
    have h1 := binary32_round_le _ hx0
    have h2 : (⌊binary32_round (x * 10)⌋ : ℚ) ≤ 20 := by
      have := Int.floor_le (binary32_round (x * 10))
      linarith
    exact_mod_cast h2
  have hby : ⌊binary32_round (y * 10)⌋ ≤ 20 := by
    have h1 := binary32_round_le _ hy0
    have h2 : (⌊binary32_round (y * 10)⌋ : ℚ) ≤ 20 := by
      have := Int.floor_le (binary32_round (y * 10))
      linarith
    exact_mod_cast h2
  refine ⟨by linarith, ?_, hp, float_mul_of_bounds x 10 hx0 (by omega),
    float_mul_of_bounds y 10 hy0 (by omega), glsl_int_of_bounds _ hrx (by omega),
    glsl_int_of_bounds _ hry (by omega), ?_⟩
  · simp [covered_position, vertex_main, VERTICES]
  · rw [hp, fragment_main_of_bounds x y hx hy (by omega)]
    rfl

/-- C7, amended, at the point (1/4, 1/2) of the triangle: products 2.5 and 5, floors 2 and
5, odd sum, black. -/
theorem triangle_fragment_classified_by_floor_witness :
    fragment_main (interpolated_pos (1 - 1 / 4 - 1 / 2) (1 / 4) (1 / 2)) =
      some (Vec4.mk 0 0 0 1) := by
  have h := (triangle_fragment_classified_by_floor (1 / 4) (1 / 2) (by norm_num)
    (by norm_num) (by norm_num)).2.2.2.2.2.2.2
  rw [floor_round_five_halves, floor_round_five, if_neg (by decide)] at h
  exact h

/-! ## Claim C8: `create_shader` returns or throws -/

/-- C8: `create_shader` returns a handle exactly when the compile-status flag is not
`GL_FALSE`, and then it is the handle `glCreateShader` gave; when the flag is `GL_FALSE` it
throws, whatever info-log length the driver reports; for the length 0 the size
`length - 1` converts to the largest `size_t` and `resize` throws `std::length_error`. -/
theorem create_shader_returns_iff_compiled (P : Platform) (gl : Driver) (ty : ShaderType)
    (src : List Char) :
    ((∃ shader, create_shader P gl ty src = .ok shader) ↔
        (gl.compile (gl.glCreateShader ty) src).status ≠ GL_FALSE) ∧
      ((gl.compile (gl.glCreateShader ty) src).status ≠ GL_FALSE →
        create_shader P gl ty src = .ok (gl.glCreateShader ty)) ∧
      ((gl.compile (gl.glCreateShader ty) src).status = GL_FALSE →
        ∃ e, create_shader P gl ty src = .error e) ∧
      ((gl.compile (gl.glCreateShader ty) src).status = GL_FALSE →
        (gl.compile (gl.glCreateShader ty) src).info_log_length = 0 →
        P.string_max_size < 2 ^ P.size_t_bits - 1 →
        create_shader P gl ty src = .error (.length_error P.length_error_what)) := by
  refine ⟨⟨?_, fun h => ⟨_, create_shader_ok P gl ty src h⟩⟩, create_shader_ok P gl ty src,
    create_shader_error P gl ty src, ?_⟩
  · rintro ⟨shader, hok⟩ hs
    obtain ⟨e, he⟩ := create_shader_error P gl ty src hs
    rw [he] at hok
    cases hok
  · intro hs hlen hmax
    have h1 : (((0 : Nat) : Int) - 1) = -1 := by norm_num
    simp only [create_shader, hs, if_true, hlen, h1, to_size_t_neg_one]
    simp [string_resize, hmax]

/-- C8 on the LP64 platform: a failed compile with no info log (length 0) throws
`std::length_error`, a successful compile returns the handle 1. -/
theorem create_shader_returns_iff_compiled_witness :
    (no_log_driver.compile (no_log_driver.glCreateShader .GL_FRAGMENT_SHADER)
        fragment_source).info_log_length = 0 ∧
      create_shader lp64 no_log_driver .GL_FRAGMENT_SHADER fragment_source =
        .error (.length_error lp64.length_error_what) ∧
      create_shader lp64 good_driver .GL_FRAGMENT_SHADER fragment_source = .ok 1 :=
  ⟨rfl,
   (create_shader_returns_iff_compiled lp64 no_log_driver .GL_FRAGMENT_SHADER
      fragment_source).2.2.2 rfl rfl (by decide),
   (create_shader_returns_iff_compiled lp64 good_driver .GL_FRAGMENT_SHADER
      fragment_source).2.1 (by decide)⟩

/-! ## Claim C9: the event phase -/

/-- C9: the event phase of an iteration leaves no event pending, whatever the queue, the
events after a quit event included, and (entered with `running` true, as the loop does)
ends with `running` false exactly when the queue holds a quit event. -/
theorem event_phase_drains_queue (queue : List SDL_Event) :
    (poll_events queue true).1 = [] ∧
      ((poll_events queue true).2 = false ↔ ∃ e ∈ queue, e.type = SDL_QUIT) ∧
      (∀ before after : List SDL_Event, queue = before ++ ⟨SDL_QUIT⟩ :: after →
        poll_events queue true = ([], false)) := by
  refine ⟨poll_events_fst queue true, poll_events_snd_false_iff queue, ?_⟩
  intro before after hq
  have h1 := poll_events_fst queue true
  have h2 : (poll_events queue true).2 = false :=
    (poll_events_snd_false_iff queue).mpr ⟨⟨SDL_QUIT⟩, by simp [hq], rfl⟩
  exact Prod.ext h1 h2

/-- C9 on a queue with two events after the quit event. -/
theorem event_phase_drains_queue_witness :
    poll_events [⟨0x300⟩, ⟨SDL_QUIT⟩, ⟨0x300⟩, ⟨0x400⟩] true = ([], false) :=
  (event_phase_drains_queue [⟨0x300⟩, ⟨SDL_QUIT⟩, ⟨0x300⟩, ⟨0x400⟩]).2.2
    [⟨0x300⟩] [⟨0x300⟩, ⟨0x400⟩] rfl

/-! ## Claim C10: the handle returned by `create_program` -/

/-- C10: when the link status is not `GL_FALSE`, `create_program` returns exactly the
handle `glCreateProgram` produced, for every handle below 2 ^ 32: the conversion to the
signed 32-bit local and back is the identity. -/
theorem create_program_returns_allocated_handle (P : Platform) (gl : Driver)
    (vertex_shader fragment_shader : Nat) (hh : gl.glCreateProgram < 2 ^ 32)
    (hstatus : (gl.link gl.glCreateProgram vertex_shader fragment_shader).status ≠ GL_FALSE) :
    to_GLuint (to_GLint gl.glCreateProgram) = gl.glCreateProgram ∧
      create_program P gl vertex_shader fragment_shader = .ok gl.glCreateProgram :=
  ⟨to_GLuint_to_GLint _ hh, create_program_ok P gl vertex_shader fragment_shader hh hstatus⟩

/-- C10 at the handle 4000000000, above 2 ^ 31: the local holds -294967296 and the
function returns 4000000000. -/
theorem create_program_returns_allocated_handle_witness :
    2 ^ 31 ≤ high_handle_driver.glCreateProgram ∧
      to_GLint high_handle_driver.glCreateProgram = -294967296 ∧
      create_program lp64 high_handle_driver 2 1 = .ok 4000000000 :=
  ⟨by decide, by decide,
   (create_program_returns_allocated_handle lp64 high_handle_driver 2 1 (by decide)
      (by decide)).2⟩

end Practice1
